import Mathlib

/-!
Shallow embedding of the discovery-service cluster state engine
(`internal/state/cluster.go`) and of the HTTP list endpoint of
`cmd/kubespan-manager/main.go`.

The Go map `map[string]*Affiliate` is embedded as an association list with
unique keys; Go channels are embedded by an identifier plus a recorded buffer
capacity; Go pointer identity of `*Subscription` is embedded by an allocation
token handed out by the cluster.  Operations that in Go mutate the receiver are
embedded as state transformers `Cluster → Cluster × ⋯`, returning alongside the
new state the list of Notifications handed to `notify`.

The files declaring `Affiliate`, `AffiliateExport`, `Notification` and
`Subscription` are not part of the available source tree; their fields and the
`Affiliate` methods used by `cluster.go` are modelled from the spec (see the
doc comments below).  Everything else is translated from the source.
-/

set_option autoImplicit false

/-- Modelled from the spec: the exported affiliate view produced by
`Affiliate.Export` (the file declaring it is missing from the source tree);
per §6 it is "an exported affiliate view (identifier + endpoint set)". -/
structure AffiliateExport where
  id : String
  endpoints : List String
  deriving DecidableEq

/-- Modelled from the spec: the `Affiliate` record (its declaring file is
missing from the source tree); per §3 it holds an `id`, an endpoint set, a
`lastUpdated` expiry marker (timestamps are embedded as `Nat`), and a
dirty/`changed` flag. -/
structure Affiliate where
  id : String
  endpoints : List String
  lastUpdated : Nat
  changed : Bool
  deriving DecidableEq

/-- Modelled from the spec: `NewAffiliate(id)` creates a fresh affiliate
record with the given id and no endpoints. -/
def NewAffiliate (id : String) : Affiliate :=
  { id := id, endpoints := [], lastUpdated := 0, changed := false }

/-- Modelled from the spec (§3): the dirty flag is "cleared at the start of
each mutation" by the cluster. -/
def Affiliate.ClearChanged (a : Affiliate) : Affiliate :=
  { a with changed := false }

/-- Modelled from the spec (§3): reading the dirty flag. -/
def Affiliate.IsChanged (a : Affiliate) : Bool :=
  a.changed

/-- Modelled from the spec (§4.1): `export()` returns a fully-copied immutable
snapshot of the affiliate's visible state. -/
def Affiliate.Export (a : Affiliate) : AffiliateExport :=
  { id := a.id, endpoints := a.endpoints }

/-- Modelled from the spec (§4.1): `garbageCollect(now)` "returns whether the
affiliate should be removed (its staleness exceeds the expiry threshold) and
whether removal/expiry changed visible state"; the expiry threshold is a fixed
duration since last update, passed here as the `expiry` parameter. -/
def Affiliate.GarbageCollect (expiry now : Nat) (a : Affiliate) : Bool × Bool :=
  let remove := decide (a.lastUpdated + expiry < now)
  (remove, remove)

/-- `Notification` from the source (`cluster.go` constructs it with fields
`AffiliateID` and an optional `Affiliate` export; a missing export signals
deletion). -/
structure Notification where
  affiliateID : String
  affiliate : Option AffiliateExport
  deriving DecidableEq

/-- `Subscription` as constructed in `cluster.go`: a back-reference to the
owning cluster (embedded by the cluster id), a freshly allocated error channel
(embedded by its recorded buffer capacity), and the caller-supplied delivery
channel (embedded by an identifier).  The `token` field embeds Go pointer
identity: each allocation receives a distinct token. -/
structure Subscription where
  clusterID : String
  errChCap : Nat
  ch : Nat
  token : Nat
  deriving DecidableEq

/-- The `Cluster` struct from the source: an id, the affiliate map (embedded
as an association list) and the subscription slice.  `nextToken` embeds the
allocator handing out distinct pointer identities to subscriptions. -/
structure Cluster where
  id : String
  affiliates : List (String × Affiliate)
  subscriptions : List Subscription
  nextToken : Nat
  deriving DecidableEq

/-- `NewCluster` from the source: fresh cluster with an empty affiliate map. -/
def NewCluster (id : String) : Cluster :=
  { id := id, affiliates := [], subscriptions := [], nextToken := 0 }

/-- Go map read `cluster.affiliates[id]`. -/
def lookupA (id : String) : List (String × Affiliate) → Option Affiliate
  | [] => none
  | (k, a) :: rest => if k = id then some a else lookupA id rest

/-- Go map write `cluster.affiliates[id] = a` (updates the existing entry in
place, otherwise appends a new entry). -/
def insertA (id : String) (a : Affiliate) : List (String × Affiliate) → List (String × Affiliate)
  | [] => [(id, a)]
  | (k, b) :: rest => if k = id then (k, a) :: rest else (k, b) :: insertA id a rest

/-- Go map delete `delete(cluster.affiliates, id)`. -/
def eraseA (id : String) : List (String × Affiliate) → List (String × Affiliate)
  | [] => []
  | (k, b) :: rest => if k = id then eraseA id rest else (k, b) :: eraseA id rest

/-- `Cluster.WithAffiliate` from the source: if `id` exists, clear its dirty
flag, run `f` on it, and notify with its new export exactly when the flag is
set afterwards; otherwise create a new affiliate, run `f`, insert it, and
notify unconditionally.  The returned list is the notifications handed to
`notify`. -/
def Cluster.WithAffiliate (c : Cluster) (id : String) (f : Affiliate → Affiliate) :
    Cluster × List Notification :=
  match lookupA id c.affiliates with
  | some affiliate =>
    let affiliate := f affiliate.ClearChanged
    let c := { c with affiliates := insertA id affiliate c.affiliates }
    if affiliate.IsChanged then
      (c, [{ affiliateID := id, affiliate := some affiliate.Export }])
    else
      (c, [])
  | none =>
    let affiliate := f (NewAffiliate id)
    ({ c with affiliates := insertA id affiliate c.affiliates },
     [{ affiliateID := id, affiliate := some affiliate.Export }])

/-- `Cluster.DeleteAffiliate` from the source: delete the entry and emit a
deletion Notification only when the id was present. -/
def Cluster.DeleteAffiliate (c : Cluster) (id : String) : Cluster × List Notification :=
  match lookupA id c.affiliates with
  | some _ =>
    ({ c with affiliates := eraseA id c.affiliates },
     [{ affiliateID := id, affiliate := none }])
  | none => (c, [])

/-- `Cluster.List` from the source: a snapshot of exports of all current
affiliates (lower-case name to avoid clashing with the `List` type). -/
def Cluster.list (c : Cluster) : List AffiliateExport :=
  c.affiliates.map (fun p => p.2.Export)

/-- `Cluster.Subscribe` from the source: build the snapshot, allocate a
Subscription carrying the cluster back-reference, a fresh error channel of
capacity 1 and the caller's channel, append it to the subscription slice and
return both. -/
def Cluster.Subscribe (c : Cluster) (ch : Nat) :
    Cluster × List AffiliateExport × Subscription :=
  let snapshot := c.affiliates.map (fun p => p.2.Export)
  let subscription : Subscription :=
    { clusterID := c.id, errChCap := 1, ch := ch, token := c.nextToken }
  ({ c with
      subscriptions := c.subscriptions ++ [subscription],
      nextToken := c.nextToken + 1 },
   snapshot, subscription)

/-- The loop body of `Cluster.unsubscribe` from the source: scan for the first
element identical to `s`; overwrite it with the last element of the slice and
truncate the slice by one (Go's swap-with-last removal).  In the recursion the
last element of the whole slice is the last element of the current suffix. -/
def removeSubscription (s : Subscription) : List Subscription → List Subscription
  | [] => []
  | t :: rest =>
    if t = s then
      match rest.getLast? with
      | none => []
      | some last => last :: rest.dropLast
    else
      t :: removeSubscription s rest

/-- `Cluster.unsubscribe` from the source. -/
def Cluster.unsubscribe (c : Cluster) (s : Subscription) : Cluster :=
  { c with subscriptions := removeSubscription s c.subscriptions }

/-- The loop of `Cluster.GarbageCollect` from the source, parametrised by the
per-affiliate collector (whose own code is not in the source tree): for each
entry ask `affGC` for `(remove, changed)`; delete the entry when `remove`,
emit an id-only Notification when `changed`. -/
def gcLoop (affGC : Affiliate → Bool × Bool) :
    List (String × Affiliate) → List (String × Affiliate) × List Notification
  | [] => ([], [])
  | (id, a) :: rest =>
    let rc := affGC a
    let r := gcLoop affGC rest
    ((if rc.1 then r.1 else (id, a) :: r.1),
     (if rc.2 then { affiliateID := id, affiliate := none } :: r.2 else r.2))

/-- `Cluster.GarbageCollect` from the source, parametrised by the
per-affiliate collector; returns the new state, the notifications handed to
`notify`, and whether the affiliate map is empty after the sweep. -/
def Cluster.GarbageCollectWith (affGC : Affiliate → Bool × Bool) (c : Cluster) :
    Cluster × List Notification × Bool :=
  let r := gcLoop affGC c.affiliates
  ({ c with affiliates := r.1 }, r.2, r.1.isEmpty)

/-- `Cluster.GarbageCollect` from the source, instantiated with the
spec-modelled `Affiliate.GarbageCollect`. -/
def Cluster.GarbageCollect (expiry now : Nat) (c : Cluster) :
    Cluster × List Notification × Bool :=
  c.GarbageCollectWith (Affiliate.GarbageCollect expiry now)

/-- One delivery round of `Cluster.notify` from the source: one notification
attempted to every subscription in the copied slice, in slice order. -/
def deliverTo (subs : List Subscription) (n : Notification) :
    List (Subscription × Notification) :=
  subs.map (fun s => (s, n))

/-- The nested dispatch loop of `Cluster.notify` from the source: outer loop
over the notifications, inner loop over the copied subscription slice. -/
def notifyLoop (subs : List Subscription) :
    List Notification → List (Subscription × Notification)
  | [] => []
  | n :: rest => deliverTo subs n ++ notifyLoop subs rest

/-- `Cluster.notify` from the source: copy the subscription slice, then
deliver each notification to each copied subscription outside the locks; the
cluster state is returned unchanged and the attempted deliveries are returned
as an event trace. -/
def Cluster.notify (c : Cluster) (ns : List Notification) :
    Cluster × List (Subscription × Notification) :=
  let subs := c.subscriptions
  (c, notifyLoop subs ns)

/-- Result of the `nodeDB.List` store call as seen by the HTTP boundary of
`main.go`: the not-found error, any other error, or the node list (node
payloads are irrelevant to the boundary logic and embedded as strings). -/
inductive DbResult where
  | notFound : DbResult
  | otherError : DbResult
  | ok : List String → DbResult
  deriving DecidableEq

/-- HTTP responses produced by the list endpoint of `main.go`. -/
inductive Response where
  | badRequest : Response
  | notFoundResp : Response
  | internalError : Response
  | okJSON : List String → Response
  deriving DecidableEq

/-- The `GET /:cluster` handler from `main.go`: empty cluster parameter gives
400; a cluster id rejected by the UUID validator (`uuid.Parse`, an external
library, embedded as the boolean parameter `validUUID`) gives 400; only then
is the store consulted, mapping `ErrNotFound` to 404, any other error to 500,
and success to the JSON node list. -/
def listClusterHandler (validUUID : String → Bool) (store : String → DbResult)
    (cluster : String) : Response :=
  if cluster = "" then
    Response.badRequest
  else if validUUID cluster = false then
    Response.badRequest
  else
    match store cluster with
    | DbResult.notFound => Response.notFoundResp
    | DbResult.otherError => Response.internalError
    | DbResult.ok nodes => Response.okJSON nodes

/-! ## Helper lemmas about the embedded map, sweep and dispatch loops -/

theorem lookupA_eraseA (id : String) (m : List (String × Affiliate)) :
    lookupA id (eraseA id m) = none := by
  induction m with
  | nil => rfl
  | cons p rest ih =>
    obtain ⟨k, a⟩ := p
    by_cases hk : k = id
    · simp [eraseA, hk, ih]
    · simp [eraseA, lookupA, hk, ih]

theorem mem_eraseA (id : String) (m : List (String × Affiliate))
    (p : String × Affiliate) (h : p ∈ eraseA id m) : p ∈ m ∧ p.1 ≠ id := by
  induction m with
  | nil => simp [eraseA] at h
  | cons q rest ih =>
    obtain ⟨k, a⟩ := q
    by_cases hk : k = id
    · rw [eraseA, if_pos hk] at h
      exact ⟨List.mem_cons_of_mem _ (ih h).1, (ih h).2⟩
    · rw [eraseA, if_neg hk] at h
      rcases List.mem_cons.mp h with hp | hp
      · exact ⟨List.mem_cons.mpr (Or.inl hp), by simp [hp, hk]⟩
      · exact ⟨List.mem_cons_of_mem _ (ih hp).1, (ih hp).2⟩

theorem gcLoop_fst (affGC : Affiliate → Bool × Bool) (m : List (String × Affiliate)) :
    (gcLoop affGC m).1 = m.filter (fun p => !(affGC p.2).1) := by
  induction m with
  | nil => rfl
  | cons p rest ih =>
    obtain ⟨id, a⟩ := p
    cases h : (affGC a).1 <;> simp [gcLoop, List.filter_cons, h, ih]

theorem gcLoop_snd (affGC : Affiliate → Bool × Bool) (m : List (String × Affiliate)) :
    (gcLoop affGC m).2 =
      (m.filter (fun p => (affGC p.2).2)).map
        (fun p => { affiliateID := p.1, affiliate := none }) := by
  induction m with
  | nil => rfl
  | cons p rest ih =>
    obtain ⟨id, a⟩ := p
    cases h : (affGC a).2 <;> simp [gcLoop, List.filter_cons, h, ih]

theorem notifyLoop_eq_flatMap (subs : List Subscription) (ns : List Notification) :
    notifyLoop subs ns = ns.flatMap (fun n => subs.map (fun s => (s, n))) := by
  induction ns with
  | nil => rfl
  | cons n rest ih => simp [notifyLoop, deliverTo, ih]

theorem fst_mem_of_mem_notifyLoop (subs : List Subscription) (ns : List Notification)
    (p : Subscription × Notification) (h : p ∈ notifyLoop subs ns) : p.1 ∈ subs := by
  rw [notifyLoop_eq_flatMap, List.mem_flatMap] at h
  obtain ⟨n, -, hp⟩ := h
  obtain ⟨s, hs, rfl⟩ := List.mem_map.mp hp
  exact hs

theorem removeSubscription_of_not_mem (s : Subscription) (l : List Subscription)
    (h : s ∉ l) : removeSubscription s l = l := by
  induction l with
  | nil => rfl
  | cons t rest ih =>
    rw [List.mem_cons, not_or] at h
    rw [removeSubscription, if_neg (fun ht => h.1 ht.symm), ih h.2]

theorem removeSubscription_perm (s : Subscription) (l : List Subscription) :
    (removeSubscription s l).Perm (l.erase s) := by
  induction l with
  | nil => simp [removeSubscription]
  | cons t rest ih =>
    by_cases hts : t = s
    · subst hts
      rw [List.erase_cons_head]
      cases hrest : rest.getLast? with
      | none =>
        rw [List.getLast?_eq_none_iff.mp hrest]
        rw [removeSubscription, if_pos rfl]
        simp [List.getLast?_eq_none_iff.mp hrest]
      | some last =>
        have hne : rest ≠ [] := by
          intro hnil; rw [hnil] at hrest; simp at hrest
        have hlast : last = rest.getLast hne := by
          rw [List.getLast?_eq_getLast rest hne] at hrest
          exact (Option.some.inj hrest).symm
        have hrw : rest.dropLast ++ [last] = rest := by
          rw [hlast]; exact List.dropLast_append_getLast hne
        rw [removeSubscription, if_pos rfl, hrest]
        have hp := (List.perm_append_singleton last rest.dropLast).symm
        rw [hrw] at hp
        exact hp
    · rw [removeSubscription, if_neg hts,
        List.erase_cons_tail (by simp [hts])]
      exact List.Perm.cons t ih

/-! ## Claim theorems -/

/-- C1: `WithAffiliate(id, f)` on a present id first clears the affiliate's
dirty flag, then applies `f`, stores the result back at `id`, and emits
exactly one Notification carrying the new export if and only if the dirty
flag is set after `f` returns; on an absent id it applies `f` to a fresh
affiliate, inserts it, and emits exactly one Notification unconditionally. -/
theorem c1_WithAffiliate_dirty_flag (c : Cluster) (id : String) (f : Affiliate → Affiliate) :
    (∀ a, lookupA id c.affiliates = some a →
      (c.WithAffiliate id f).1.affiliates = insertA id (f a.ClearChanged) c.affiliates ∧
      (c.WithAffiliate id f).2 =
        (if (f a.ClearChanged).IsChanged then
          [{ affiliateID := id, affiliate := some (f a.ClearChanged).Export }]
        else [])) ∧
    (lookupA id c.affiliates = none →
      (c.WithAffiliate id f).1.affiliates = insertA id (f (NewAffiliate id)) c.affiliates ∧
      (c.WithAffiliate id f).2 =
        [{ affiliateID := id, affiliate := some (f (NewAffiliate id)).Export }]) := by
  constructor
  · intro a h
    rw [Cluster.WithAffiliate, h]
    by_cases hc : (f a.ClearChanged).IsChanged = true <;> simp [hc]
  · intro h
    rw [Cluster.WithAffiliate, h]
    exact ⟨rfl, rfl⟩

/-- Witness for C1: mutating a present affiliate without setting the dirty
flag emits nothing, while creating an absent affiliate with an identity
mutation still emits one Notification carrying its export. -/
theorem c1_WithAffiliate_dirty_flag_witness :
    ((Cluster.mk "c" [("x", Affiliate.mk "x" ["e"] 5 true)] [] 0).WithAffiliate "x"
        (fun a => { a with endpoints := ["f"] })).2 = [] ∧
    ((Cluster.mk "c" [] [] 0).WithAffiliate "y" (fun a => a)).2 =
      [{ affiliateID := "y", affiliate := some (AffiliateExport.mk "y" []) }] := by
  constructor
  · have h := (c1_WithAffiliate_dirty_flag (Cluster.mk "c" [("x", Affiliate.mk "x" ["e"] 5 true)] [] 0)
      "x" (fun a => { a with endpoints := ["f"] })).1 (Affiliate.mk "x" ["e"] 5 true) rfl
    rw [h.2]; rfl
  · have h := (c1_WithAffiliate_dirty_flag (Cluster.mk "c" [] [] 0) "y" (fun a => a)).2 rfl
    rw [h.2]; rfl

/-- C2: `GarbageCollect(now)` removes exactly the affiliates whose last update
is older than the expiry threshold, leaves fresher ones in the map, emits one
id-only deletion Notification per removed affiliate (in sweep order), and
reports the cluster empty exactly when the affiliate map is empty after the
sweep. -/
theorem c2_GarbageCollect_sweep (expiry now : Nat) (c : Cluster) :
    (c.GarbageCollect expiry now).1.affiliates =
      c.affiliates.filter (fun p => !decide (p.2.lastUpdated + expiry < now)) ∧
    (c.GarbageCollect expiry now).2.1 =
      (c.affiliates.filter (fun p => decide (p.2.lastUpdated + expiry < now))).map
        (fun p => { affiliateID := p.1, affiliate := none }) ∧
    ((c.GarbageCollect expiry now).2.2 = true ↔
      (c.GarbageCollect expiry now).1.affiliates = []) := by
  refine ⟨?_, ?_, ?_⟩
  · rw [Cluster.GarbageCollect, Cluster.GarbageCollectWith]
    exact gcLoop_fst (Affiliate.GarbageCollect expiry now) c.affiliates
  · rw [Cluster.GarbageCollect, Cluster.GarbageCollectWith]
    exact gcLoop_snd (Affiliate.GarbageCollect expiry now) c.affiliates
  · rw [Cluster.GarbageCollect, Cluster.GarbageCollectWith]
    exact List.isEmpty_iff

/-- C3: `DeleteAffiliate(id)` on a present id removes the entry, emits exactly
one deletion Notification (id set, export absent), after which the id resolves
to nothing and no export in `list` carries it (assuming affiliates are keyed by
their own id, as `WithAffiliate` maintains); on an absent id it changes
nothing and emits nothing. -/
theorem c3_DeleteAffiliate_cases (c : Cluster) (id : String)
    (hids : ∀ p ∈ c.affiliates, (p : String × Affiliate).2.id = p.1) :
    (∀ a, lookupA id c.affiliates = some a →
      (c.DeleteAffiliate id).1.affiliates = eraseA id c.affiliates ∧
      (c.DeleteAffiliate id).2 = [{ affiliateID := id, affiliate := none }] ∧
      lookupA id (c.DeleteAffiliate id).1.affiliates = none ∧
      ∀ e ∈ (c.DeleteAffiliate id).1.list, e.id ≠ id) ∧
    (lookupA id c.affiliates = none →
      (c.DeleteAffiliate id).1 = c ∧ (c.DeleteAffiliate id).2 = []) := by
  constructor
  · intro a h
    rw [Cluster.DeleteAffiliate, h]
    refine ⟨rfl, rfl, lookupA_eraseA id c.affiliates, ?_⟩
    intro e he
    obtain ⟨p, hp, rfl⟩ := List.mem_map.mp he
    obtain ⟨hpm, hpk⟩ := mem_eraseA id c.affiliates p hp
    have := hids p hpm
    simp only [Affiliate.Export]
    rw [this]
    exact hpk
  · intro h
    rw [Cluster.DeleteAffiliate, h]
    exact ⟨rfl, rfl⟩

/-- Witness for C3: deleting a present id emits one deletion Notification;
deleting an absent id emits nothing. -/
theorem c3_DeleteAffiliate_cases_witness :
    ((Cluster.mk "c" [("x", Affiliate.mk "x" [] 0 false)] [] 0).DeleteAffiliate "x").2 =
      [{ affiliateID := "x", affiliate := none }] ∧
    ((Cluster.mk "c" [("x", Affiliate.mk "x" [] 0 false)] [] 0).DeleteAffiliate "y").2 = [] := by
  constructor
  · exact ((c3_DeleteAffiliate_cases (Cluster.mk "c" [("x", Affiliate.mk "x" [] 0 false)] [] 0)
      "x" (by decide)).1 (Affiliate.mk "x" [] 0 false) rfl).2.1
  · exact ((c3_DeleteAffiliate_cases (Cluster.mk "c" [("x", Affiliate.mk "x" [] 0 false)] [] 0)
      "y" (by decide)).2 (by decide)).2

/-- C4: `Subscribe(ch)` returns the same snapshot `list` would produce, leaves
the affiliate map untouched, appends exactly one new Subscription to the
subscription slice and returns that Subscription; the new Subscription carries
the caller-supplied delivery channel, the owning cluster as back-reference,
and an error channel of capacity one. -/
theorem c4_Subscribe_registration (c : Cluster) (ch : Nat) :
    (c.Subscribe ch).2.1 = c.list ∧
    (c.Subscribe ch).1.subscriptions = c.subscriptions ++ [(c.Subscribe ch).2.2] ∧
    (c.Subscribe ch).2.2.ch = ch ∧
    (c.Subscribe ch).2.2.clusterID = c.id ∧
    (c.Subscribe ch).2.2.errChCap = 1 ∧
    (c.Subscribe ch).1.affiliates = c.affiliates :=
  ⟨rfl, rfl, rfl, rfl, rfl, rfl⟩

/-- C6: `list()` contains exactly one export per affiliate in the map: its
length is the number of affiliates, its `i`-th element is the export of the
`i`-th map entry, every affiliate's export occurs in it, and every element is
the export of some current affiliate. -/
theorem c6_list_exports (c : Cluster) :
    c.list.length = c.affiliates.length ∧
    (∀ i : Nat, c.list[i]? = (c.affiliates[i]?).map (fun p => p.2.Export)) ∧
    (∀ p ∈ c.affiliates, (p : String × Affiliate).2.Export ∈ c.list) ∧
    (∀ e ∈ c.list, ∃ p ∈ c.affiliates, e = (p : String × Affiliate).2.Export) := by
  refine ⟨List.length_map _ _, fun i => List.getElem?_map _ _ _, fun p hp => ?_, fun e he => ?_⟩
  · exact List.mem_map.mpr ⟨p, hp, rfl⟩
  · obtain ⟨p, hp, rfl⟩ := List.mem_map.mp he
    exact ⟨p, hp, rfl⟩

/-- Witness for C6: on a one-affiliate cluster, that affiliate's export is in
the snapshot and the snapshot has one element. -/
theorem c6_list_exports_witness :
    (AffiliateExport.mk "x" ["e"]) ∈ (Cluster.mk "c" [("x", Affiliate.mk "x" ["e"] 0 false)] [] 0).list ∧
    (Cluster.mk "c" [("x", Affiliate.mk "x" ["e"] 0 false)] [] 0).list.length =
      (Cluster.mk "c" [("x", Affiliate.mk "x" ["e"] 0 false)] [] 0).affiliates.length :=
  ⟨(c6_list_exports (Cluster.mk "c" [("x", Affiliate.mk "x" ["e"] 0 false)] [] 0)).2.2.1
      ("x", Affiliate.mk "x" ["e"] 0 false) (by decide),
   (c6_list_exports (Cluster.mk "c" [("x", Affiliate.mk "x" ["e"] 0 false)] [] 0)).1⟩

/-- Unsubscribing a subscription that is not in the active list leaves the
cluster unchanged. -/
theorem unsubscribe_no_op (c : Cluster) (s : Subscription) (h : s ∉ c.subscriptions) :
    c.unsubscribe s = c := by
  rw [Cluster.unsubscribe, removeSubscription_of_not_mem s _ h]

/-- C7: `unsubscribe(s)` removes `s` (compared by identity) from the active
subscription list, after which `notify` delivers nothing to `s`; every other
subscription is preserved as a set; a second `unsubscribe` with the same `s`,
or an `unsubscribe` with an `s` not in the list, leaves the cluster unchanged.
The hypothesis says `s` occurs at most once, which holds for slices built by
`Subscribe` since every allocation is a distinct pointer. -/
theorem c7_unsubscribe_identity (c : Cluster) (s : Subscription)
    (hcount : c.subscriptions.count s ≤ 1) :
    s ∉ (c.unsubscribe s).subscriptions ∧
    (∀ t, t ≠ s → (t ∈ (c.unsubscribe s).subscriptions ↔ t ∈ c.subscriptions)) ∧
    (c.unsubscribe s).unsubscribe s = c.unsubscribe s ∧
    (s ∉ c.subscriptions → c.unsubscribe s = c) ∧
    (∀ ns p, p ∈ ((c.unsubscribe s).notify ns).2 → p.1 ≠ s) := by
  have hperm := removeSubscription_perm s c.subscriptions
  have hcnt : (removeSubscription s c.subscriptions).count s = c.subscriptions.count s - 1 := by
    rw [hperm.count_eq s, List.count_erase_self]
  have h0 : (removeSubscription s c.subscriptions).count s = 0 := by omega
  have hnot : s ∉ removeSubscription s c.subscriptions := List.count_eq_zero.mp h0
  refine ⟨hnot, fun t ht => ?_, ?_, unsubscribe_no_op c s, fun ns p hp => ?_⟩
  · exact hperm.mem_iff.trans (List.mem_erase_of_ne ht)
  · exact unsubscribe_no_op (c.unsubscribe s) s hnot
  · intro hps
    subst hps
    exact hnot (fst_mem_of_mem_notifyLoop _ ns p hp)

/-- Witness for C7: removing the only subscription empties the list, and a
repeated removal is a no-op. -/
theorem c7_unsubscribe_identity_witness :
    (Subscription.mk "c" 1 7 0) ∉
      ((Cluster.mk "c" [] [Subscription.mk "c" 1 7 0] 1).unsubscribe
        (Subscription.mk "c" 1 7 0)).subscriptions ∧
    ((Cluster.mk "c" [] [Subscription.mk "c" 1 7 0] 1).unsubscribe
        (Subscription.mk "c" 1 7 0)).unsubscribe (Subscription.mk "c" 1 7 0) =
      (Cluster.mk "c" [] [Subscription.mk "c" 1 7 0] 1).unsubscribe
        (Subscription.mk "c" 1 7 0) :=
  ⟨(c7_unsubscribe_identity (Cluster.mk "c" [] [Subscription.mk "c" 1 7 0] 1)
      (Subscription.mk "c" 1 7 0) (by decide)).1,
   (c7_unsubscribe_identity (Cluster.mk "c" [] [Subscription.mk "c" 1 7 0] 1)
      (Subscription.mk "c" 1 7 0) (by decide)).2.2.1⟩

/-- C8: the `GET /:cluster` handler answers bad-request without consulting the
store when the cluster parameter is empty or rejected by the UUID validator
(the result is the same for any two stores), answers not-found when the store
reports `ErrNotFound`, and otherwise returns the listed nodes. -/
theorem c8_listHandler_validation (validUUID : String → Bool)
    (store store' : String → DbResult) (cluster : String) :
    ((cluster = "" ∨ validUUID cluster = false) →
      listClusterHandler validUUID store cluster = Response.badRequest ∧
      listClusterHandler validUUID store cluster =
        listClusterHandler validUUID store' cluster) ∧
    (cluster ≠ "" → validUUID cluster = true →
      (store cluster = DbResult.notFound →
        listClusterHandler validUUID store cluster = Response.notFoundResp) ∧
      (∀ nodes, store cluster = DbResult.ok nodes →
        listClusterHandler validUUID store cluster = Response.okJSON nodes)) := by
  constructor
  · intro h
    by_cases he : cluster = ""
    · constructor <;> simp [listClusterHandler, he]
    · have hv : validUUID cluster = false := h.resolve_left he
      constructor <;> simp [listClusterHandler, he, hv]
  · intro hne hv
    constructor
    · intro hnf
      simp [listClusterHandler, hne, hv, hnf]
    · intro nodes hok
      simp [listClusterHandler, hne, hv, hok]

/-- Witness for C8: with a validator accepting only `"u"`, a store that always
reports not-found yields 404 on `"u"` and 400 on a rejected id, the latter
independently of the store. -/
theorem c8_listHandler_validation_witness :
    listClusterHandler (fun s => s == "u") (fun _ => DbResult.notFound) "u" =
      Response.notFoundResp ∧
    listClusterHandler (fun s => s == "u") (fun _ => DbResult.notFound) "bad" =
      Response.badRequest :=
  ⟨((c8_listHandler_validation (fun s => s == "u") (fun _ => DbResult.notFound)
      (fun _ => DbResult.notFound) "u").2 (by decide) (by decide)).1 rfl,
   ((c8_listHandler_validation (fun s => s == "u") (fun _ => DbResult.notFound)
      (fun _ => DbResult.notFound) "bad").1 (Or.inr (by decide))).1⟩

/-- C9: every Notification emitted by the garbage-collection sweep is
deletion-shaped (export absent), one is emitted for every affiliate whose
per-affiliate collector reports a visible change even without removal, and an
affiliate with collector result `(remove := false, changed := true)` gets a
deletion-shaped Notification while remaining in the map and in `list()`. -/
theorem c9_gc_deletion_shaped (affGC : Affiliate → Bool × Bool) (c : Cluster) :
    (∀ n ∈ (c.GarbageCollectWith affGC).2.1,
      (n : Notification).affiliate = (none : Option AffiliateExport)) ∧
    (∀ id a, (id, a) ∈ c.affiliates → (affGC a).2 = true →
      ({ affiliateID := id, affiliate := none } : Notification) ∈
        (c.GarbageCollectWith affGC).2.1) ∧
    (∀ id a, (id, a) ∈ c.affiliates → affGC a = (false, true) →
      (id, a) ∈ (c.GarbageCollectWith affGC).1.affiliates ∧
      a.Export ∈ (c.GarbageCollectWith affGC).1.list) := by
  refine ⟨fun n hn => ?_, fun id a hm hc => ?_, fun id a hm hgc => ?_⟩
  · simp only [Cluster.GarbageCollectWith] at hn
    rw [gcLoop_snd] at hn
    obtain ⟨p, hp, rfl⟩ := List.mem_map.mp hn
    rfl
  · simp only [Cluster.GarbageCollectWith]
    rw [gcLoop_snd]
    exact List.mem_map.mpr ⟨(id, a), List.mem_filter.mpr ⟨hm, hc⟩, rfl⟩
  · have hmem : (id, a) ∈ (gcLoop affGC c.affiliates).1 := by
      rw [gcLoop_fst]
      refine List.mem_filter.mpr ⟨hm, ?_⟩
      rw [hgc]
      rfl
    refine ⟨hmem, ?_⟩
    simp only [Cluster.GarbageCollectWith, Cluster.list]
    exact List.mem_map.mpr ⟨(id, a), hmem, rfl⟩

/-- Witness for C9: a collector answering `(false, true)` makes the sweep emit
a deletion-shaped Notification for an affiliate that stays in the map. -/
theorem c9_gc_deletion_shaped_witness :
    ({ affiliateID := "x", affiliate := none } : Notification) ∈
      ((Cluster.mk "c" [("x", Affiliate.mk "x" [] 0 false)] [] 0).GarbageCollectWith
        (fun _ => (false, true))).2.1 ∧
    ("x", Affiliate.mk "x" [] 0 false) ∈
      ((Cluster.mk "c" [("x", Affiliate.mk "x" [] 0 false)] [] 0).GarbageCollectWith
        (fun _ => (false, true))).1.affiliates :=
  ⟨(c9_gc_deletion_shaped (fun _ => (false, true))
      (Cluster.mk "c" [("x", Affiliate.mk "x" [] 0 false)] [] 0)).2.1
      "x" (Affiliate.mk "x" [] 0 false) (by decide) rfl,
   ((c9_gc_deletion_shaped (fun _ => (false, true))
      (Cluster.mk "c" [("x", Affiliate.mk "x" [] 0 false)] [] 0)).2.2
      "x" (Affiliate.mk "x" [] 0 false) (by decide) rfl).1⟩

/-- C10: `notify` returns the cluster state unchanged (same affiliate map and
subscription list), and attempts delivery of each supplied Notification to
every subscription in the copied slice, outer loop in the order the
notifications were supplied. -/
theorem c10_notify_frame (c : Cluster) (ns : List Notification) :
    (c.notify ns).1 = c ∧
    (c.notify ns).2 = ns.flatMap (fun n => c.subscriptions.map (fun s => (s, n))) ∧
    (∀ n ∈ ns, ∀ s ∈ c.subscriptions, (s, n) ∈ (c.notify ns).2) := by
  refine ⟨rfl, notifyLoop_eq_flatMap c.subscriptions ns, fun n hn s hs => ?_⟩
  show (s, n) ∈ notifyLoop c.subscriptions ns
  rw [notifyLoop_eq_flatMap, List.mem_flatMap]
  exact ⟨n, hn, List.mem_map.mpr ⟨s, hs, rfl⟩⟩

/-- Witness for C10: a single notification reaches the single subscription and
the cluster is unchanged. -/
theorem c10_notify_frame_witness :
    ((Subscription.mk "c" 1 7 0), ({ affiliateID := "x", affiliate := none } : Notification)) ∈
      ((Cluster.mk "c" [] [Subscription.mk "c" 1 7 0] 1).notify
        [{ affiliateID := "x", affiliate := none }]).2 ∧
    ((Cluster.mk "c" [] [Subscription.mk "c" 1 7 0] 1).notify
        [{ affiliateID := "x", affiliate := none }]).1 =
      Cluster.mk "c" [] [Subscription.mk "c" 1 7 0] 1 :=
  ⟨(c10_notify_frame (Cluster.mk "c" [] [Subscription.mk "c" 1 7 0] 1)
      [{ affiliateID := "x", affiliate := none }]).2.2
      { affiliateID := "x", affiliate := none } (by decide)
      (Subscription.mk "c" 1 7 0) (by decide),
   (c10_notify_frame (Cluster.mk "c" [] [Subscription.mk "c" 1 7 0] 1)
      [{ affiliateID := "x", affiliate := none }]).1⟩

/-- Witness for C2: with threshold 10 at time 100, an affiliate last updated
at 0 is removed with one deletion Notification while one updated at 95
stays. -/
theorem c2_GarbageCollect_sweep_witness :
    ((Cluster.mk "c" [("old", Affiliate.mk "old" [] 0 false),
        ("new", Affiliate.mk "new" [] 95 false)] [] 0).GarbageCollect 10 100).2.1 =
      [{ affiliateID := "old", affiliate := none }] ∧
    ((Cluster.mk "c" [("old", Affiliate.mk "old" [] 0 false),
        ("new", Affiliate.mk "new" [] 95 false)] [] 0).GarbageCollect 10 100).1.affiliates =
      [("new", Affiliate.mk "new" [] 95 false)] := by
  have h := c2_GarbageCollect_sweep 10 100
    (Cluster.mk "c" [("old", Affiliate.mk "old" [] 0 false),
      ("new", Affiliate.mk "new" [] 95 false)] [] 0)
  exact ⟨by rw [h.2.1]; rfl, by rw [h.1]; rfl⟩

/-- Witness for C4: subscribing to an empty cluster returns its (empty)
snapshot and a Subscription with a capacity-one error channel. -/
theorem c4_Subscribe_registration_witness :
    ((Cluster.mk "c" [] [] 0).Subscribe 7).2.2.errChCap = 1 ∧
    ((Cluster.mk "c" [] [] 0).Subscribe 7).2.1 = (Cluster.mk "c" [] [] 0).list :=
  ⟨(c4_Subscribe_registration (Cluster.mk "c" [] [] 0) 7).2.2.2.2.1,
   (c4_Subscribe_registration (Cluster.mk "c" [] [] 0) 7).1⟩
